import Mathlib

/-!
Shallow embedding of the two example applications of this repository
(src/examples/async_tasks.py and src/examples/image_classifier.py),
together with theorems checking the natural-language specification
against the embedded code.

External libraries (the reactive-parameter framework, the thread pool,
the IOLoop, PIL/numpy, the Keras model zoo and the charting library)
are represented by abstract types and function records; the code of the
repository itself is transliterated line by line.  Numeric code uses
exact arithmetic (integers and rationals).
-/

/-- Python int() applied to an exact rational: truncation toward zero. -/
def truncQ (q : ℚ) : ℤ := if 0 ≤ q then ⌊q⌋ else ⌈q⌉

/-- Rounding of an exact rational to the nearest integer with ties to
even, the rounding used both by IEEE-754 round-to-nearest and by
pandas Series.round. -/
def roundHalfEven (q : ℚ) : ℤ :=
  if q - ⌊q⌋ < 1 / 2 then ⌊q⌋
  else if 1 / 2 < q - ⌊q⌋ then ⌊q⌋ + 1
  else if ⌊q⌋ % 2 = 0 then ⌊q⌋ else ⌊q⌋ + 1

/-- Half-even rounding of the ratio a / b of integers, for b > 0. -/
def roundHalfEvenDiv (a b : ℤ) : ℤ :=
  let q := a / b
  let r := a % b
  if 2 * r < b then q
  else if b < 2 * r then q + 1
  else if q % 2 = 0 then q else q + 1

/-- The largest e in [-60, 60] with 2 ^ e ≤ a / b, for b > 0: for
ratios of magnitude within that range (all that arise here) this is
the binade exponent of a / b. -/
def binadeExpDiv (a b : ℤ) : ℤ :=
  (List.range 121).foldl
    (fun acc i =>
      let e : ℤ := (i : ℤ) - 60
      if (if 0 ≤ e then b * 2 ^ e.toNat ≤ a else b ≤ a * 2 ^ (-e).toNat)
        then e else acc)
    (-60)

/-- Modelled from IEEE-754 binary64 arithmetic: the double nearest to
the ratio a / b (round to nearest, ties to even), for b > 0 and
magnitudes within 2 ^ ±60, the only range arising here.  The result is
returned as a pair (m, e) denoting m * 2 ^ (e - 52); nonpositive
ratios return (0, 0), i.e. zero (only a = 0 occurs here). -/
def roundDoubleDiv (a b : ℤ) : ℤ × ℤ :=
  if a ≤ 0 then (0, 0)
  else
    let e := binadeExpDiv a b
    if 0 ≤ 52 - e then (roundHalfEvenDiv (a * 2 ^ (52 - e).toNat) b, e)
    else (roundHalfEvenDiv a (b * 2 ^ (e - 52).toNat), e)

/-- Python int() of the binary64 value m * 2 ^ (e - 52) with m ≥ 0:
truncation toward zero. -/
def truncDouble (m e : ℤ) : ℤ :=
  if 0 ≤ e - 52 then m * 2 ^ (e - 52).toNat else m / 2 ^ (52 - e).toNat

namespace AsyncTasks

/-- State of the ProgressExtMod parameterized component.
completed defaults to 0, bar_color to "info", num_tasks to 100
(with param bounds (1, None), recorded as numTasksInBounds below). -/
structure ProgressExtMod where
  completed : ℤ := 0
  bar_color : String := "info"
  num_tasks : ℤ := 100
deriving DecidableEq

/-- The param declaration bounds=(1, None) on num_tasks. -/
def ProgressExtMod.numTasksInBounds (p : ProgressExtMod) : Prop :=
  1 ≤ p.num_tasks

/-- ProgressExtMod.value: int(100 * (self.completed / self.num_tasks))
with the arithmetic idealized as exact rationals.  Division by zero
raises in Python, modelled by none. -/
def ProgressExtMod.value (p : ProgressExtMod) : Option ℤ :=
  if p.num_tasks = 0 then none
  else some (truncQ (100 * ((p.completed : ℚ) / (p.num_tasks : ℚ))))

/-- ProgressExtMod.value under the double-precision arithmetic CPython
actually performs: the true division completed / num_tasks rounds to
the nearest binary64 double m1 * 2 ^ (e1 - 52), the multiplication by
100 rounds the exact product to the nearest double again, and int()
truncates; stated for states within the param bounds (num_tasks ≥ 1,
0 ≤ completed). -/
def ProgressExtMod.valueFloat (p : ProgressExtMod) : Option ℤ :=
  if p.num_tasks = 0 then none
  else some (
    let d1 := roundDoubleDiv p.completed p.num_tasks
    let d2 :=
      if 0 ≤ d1.2 - 52 then roundDoubleDiv (100 * d1.1 * 2 ^ (d1.2 - 52).toNat) 1
      else roundDoubleDiv (100 * d1.1) (2 ^ (52 - d1.2).toNat)
    truncDouble d2.1 d2.2)

/-- ProgressExtMod.reset: sets completed back to 0. -/
def ProgressExtMod.reset (p : ProgressExtMod) : ProgressExtMod :=
  { p with completed := 0 }

/-- ProgressExtMod.increment: completed += 1, the wrapped body runs,
then if completed == num_tasks the component is reset. -/
def ProgressExtMod.increment (p : ProgressExtMod) : ProgressExtMod :=
  let p := { p with completed := p.completed + 1 }
  if p.completed = p.num_tasks then p.reset else p

/-- The state after k increment calls starting from completed = 0
with a fixed num_tasks. -/
def iterateIncrement (num_tasks : ℤ) : Nat → ProgressExtMod
  | 0 => { completed := 0, num_tasks := num_tasks }
  | k + 1 => (iterateIncrement num_tasks k).increment

/-- Work that a piece of code performs on whatever thread runs it. -/
inductive BgWork where
  | sleep (seconds : ℤ)
  | addToResult (amount : ℤ)
deriving DecidableEq

/-- np.random.randint(1, 2) draws uniformly from the half-open range
[1, 2), hence always returns 1. -/
def randint_1_2 : ℤ := 1

/-- AsyncComponent._blocking_task: sleeps, then returns 5. -/
def blocking_task : List BgWork × ℤ := ([BgWork.sleep randint_1_2], 5)

/-- AsyncComponent._update: reads future.result() (always 5) and adds it
to self.result under the unlocked context manager. -/
def update_callback_work : List BgWork := [BgWork.addToResult blocking_task.2]

/-- Actions do_calc performs on the UI thread while it runs. -/
inductive LoopAction where
  | executorSubmit (work : List BgWork)
  | ioloopAddFuture (callbackWork : List BgWork)
deriving DecidableEq

/-- Result of running AsyncComponent.do_calc: the value written to
progress.num_tasks and the ordered list of actions performed. -/
structure DoCalcResult where
  progress_num_tasks : ℤ
  actions : List LoopAction
deriving DecidableEq

/-- The default value of the num_tasks parameter of do_calc. -/
def do_calc_default_num_tasks : Nat := 10

/-- AsyncComponent.do_calc: reassigns num_tasks to 20, writes it to
progress.num_tasks, and for each of the num_tasks iterations submits
_blocking_task to the executor and registers _update on the IOLoop. -/
def do_calc (num_tasks : Nat) : DoCalcResult :=
  let num_tasks : Nat := 20
  { progress_num_tasks := (num_tasks : ℤ)
    actions :=
      (List.replicate num_tasks
        [LoopAction.executorSubmit blocking_task.1,
         LoopAction.ioloopAddFuture update_callback_work]).flatten }

/-- Modelled from the ThreadPoolExecutor documentation: executor.submit
schedules the callable on a worker thread and returns immediately, so
none of the submitted work runs on the calling (UI) thread; modelled
from the tornado IOLoop documentation: add_future schedules the
callback on the IOLoop, i.e. on the UI thread. -/
def uiThreadWork : LoopAction → List BgWork
  | LoopAction.executorSubmit _ => []
  | LoopAction.ioloopAddFuture cb => cb

/-- The work a LoopAction causes on an executor worker thread. -/
def workerThreadWork : LoopAction → List BgWork
  | LoopAction.executorSubmit w => w
  | LoopAction.ioloopAddFuture _ => []

/-- Whether a piece of work is a blocking sleep. -/
def isSleep : BgWork → Bool
  | BgWork.sleep _ => true
  | _ => false

/-- Whether an action is a submission to the thread-pool executor. -/
def isSubmit : LoopAction → Bool
  | LoopAction.executorSubmit _ => true
  | _ => false

end AsyncTasks

namespace ImageClassifierExample

/-- One decoded prediction: an (id, prediction, probability) tuple. -/
abbrev Pred : Type := String × String × ℚ

/-- The single-quote character as a string. -/
def sq : String := (Char.ofNat 39).toString

/-- An instantiated Keras model; the app only ever calls its predict
method. -/
structure KerasModel (Tensor Preds : Type) where
  predict : Tensor → Preds

/-- External PIL / numpy operations used by the app: PIL Image.resize,
numpy expand_dims, and PIL Image.open over the uploaded bytes. -/
structure PyEnv (Image Tensor : Type) where
  resize : Image → Nat × Nat → Image
  expand_dims : Tensor → Nat → Tensor
  imageOpen : List Nat → Image

/-- The external calls the classification pipeline makes, in program
order.  fitCall (training) is part of the model interface but is never
emitted by this app. -/
inductive Call where
  | report (message : String) (value : ℤ)
  | kerasApplicationCtor (weights : String)
  | resizeCall (shape : Nat × Nat)
  | imgToArrayCall
  | expandDimsCall (axis : Nat)
  | applicationPreprocessCall
  | predictCall
  | fitCall
  | decodePredictionsCall
deriving DecidableEq

/-- The KerasApplication NamedTuple wrapping one Keras application. -/
structure KerasApplication (Image Tensor Preds : Type) where
  name : String
  keras_application : String → KerasModel Tensor Preds
  preprocess_input_func : Tensor → Tensor
  decode_predictions_func : Preds → List (List Pred)
  load_img_func : String → Nat × Nat → Image
  img_to_array_func : Image → Tensor
  input_shape : Nat × Nat := (224, 224)
  url : String := "https://keras.io/applications/"

variable {Image Tensor Preds : Type}

/-- KerasApplication.load_image: loads an image from file resized to
input_shape. -/
def KerasApplication.load_image (app : KerasApplication Image Tensor Preds)
    (image_path : String) : Image :=
  app.load_img_func image_path app.input_shape

/-- KerasApplication.to_input_shape: image.resize(self.input_shape),
together with the external call it makes. -/
def KerasApplication.to_input_shape (app : KerasApplication Image Tensor Preds)
    (env : PyEnv Image Tensor) (image : Image) : List Call × Image :=
  ([Call.resizeCall app.input_shape], env.resize image app.input_shape)

/-- KerasApplication.get_model: the keras_application instantiated with
weights="imagenet" (lru_cache only memoizes this pure call). -/
def KerasApplication.get_model (app : KerasApplication Image Tensor Preds) :
    KerasModel Tensor Preds :=
  app.keras_application "imagenet"

/-- KerasApplication.preprocess_input: resize to input_shape, convert
to array, expand a batch dimension (axis 0), then apply the
preprocess function of the application; paired with the calls it makes in
order. -/
def KerasApplication.preprocess_input (app : KerasApplication Image Tensor Preds)
    (env : PyEnv Image Tensor) (image : Image) : List Call × Tensor :=
  let step1 := app.to_input_shape env image
  let image1 := step1.2
  let image2 := app.img_to_array_func image1
  let image3 := env.expand_dims image2 0
  let image4 := app.preprocess_input_func image3
  (step1.1 ++ [Call.imgToArrayCall, Call.expandDimsCall 0,
    Call.applicationPreprocessCall], image4)

/-- KerasApplication.get_top_predictions: reports progress, obtains the
model, preprocesses the image, predicts, decodes, reports completion
and returns the decoded predictions for the single image
(top_predictions[0], none when indexing would raise).  The first
component is the ordered list of external calls made. -/
def KerasApplication.get_top_predictions (app : KerasApplication Image Tensor Preds)
    (env : PyEnv Image Tensor) (image : Image) : List Call × Option (List Pred) :=
  let c1 := Call.report
    ("Loading " ++ app.name ++
      " model ... (The first time this is done it may take several minutes)") 10
  let c2 := Call.kerasApplicationCtor "imagenet"
  let model := app.get_model
  let c3 := Call.report "Processing image ... " 67
  let step := app.preprocess_input env image
  let image1 := step.2
  let c4 := Call.report
    ("Classifying image with " ++ sq ++ app.name ++ sq ++ "... ") 85
  let predictions := model.predict image1
  let top_predictions := app.decode_predictions_func predictions
  let c5 := Call.report "" 0
  ([c1, c2, c3] ++ step.1 ++
    [c4, Call.predictCall, Call.decodePredictionsCall, c5],
   top_predictions[0]?)

/-- Python str.capitalize: first character uppercased, the rest
lowercased. -/
def capitalize (s : String) : String :=
  match s.data with
  | [] => ""
  | c :: cs => String.mk (c.toUpper :: cs.map Char.toLower)

/-- KerasApplication.to_main_prediction_string: destructures
predictions[0] (none when the list is empty and indexing would raise),
replaces underscores by spaces, capitalizes, and embeds the result in a
markdown string. -/
def KerasApplication.to_main_prediction_string (predictions : List Pred) :
    Option String :=
  match predictions with
  | [] => none
  | (_, prediction, _) :: _ =>
    let prediction_text := capitalize (prediction.replace "_" " ")
    some ("It" ++ sq ++ "s a **" ++ prediction_text ++ "**")

/-- An altair EncodingSortField. -/
structure EncodingSortField where
  field : String
  order : String
deriving DecidableEq

/-- One row of the chart dataframe built from the predictions. -/
structure ChartRow where
  id : String
  prediction : String
  probability : ℚ
deriving DecidableEq

/-- The altair bar chart object built by to_predictions_chart. -/
structure Chart where
  data : List ChartRow
  mark : String
  xShorthand : String
  xScaleDomain : ℚ × ℚ
  yShorthand : String
  ySort : EncodingSortField
  height : Option Nat := none
  width : Option Nat := none
deriving DecidableEq

/-- altair Chart.properties(height=..., width=...). -/
def Chart.properties (c : Chart) (height width : Nat) : Chart :=
  { c with height := some height, width := some width }

/-- pandas Series.round(2) on an exact rational. -/
def round2 (q : ℚ) : ℚ := (roundHalfEven (q * 100) : ℚ) / 100

/-- One dataframe row of pd.DataFrame(predictions, columns=[id,
prediction, probability]) after the probability column is rescaled by
round(2) * 100. -/
def predToRow (p : Pred) : ChartRow :=
  { id := p.1, prediction := p.2.1, probability := round2 p.2.2 * 100 }

/-- KerasApplication.to_predictions_chart: builds a dataframe with
columns id, prediction, probability, rescales probability by
round(2) * 100, and returns a bar chart with x = probability given a
(0, 100) scale and y = prediction sorted by the probability field in
descending order. -/
def KerasApplication.to_predictions_chart (predictions : List Pred) : Chart :=
  { data := predictions.map predToRow
    mark := "bar"
    xShorthand := "probability:Q"
    xScaleDomain := (0, 100)
    yShorthand := "prediction:N"
    ySort := { field := "probability", order := "descending" } }

/-- The value of a named quantitative field of a chart row; only the
probability column is quantitative in this chart. -/
def fieldValue (row : ChartRow) (f : String) : ℚ :=
  if f = "probability" then row.probability else 0

/-- Modelled from the charting library documentation: with a y-encoding
sort of EncodingSortField(field, order), the y-axis categories are laid
out by stably sorting the rows on that field in the requested order. -/
def renderedYOrder (chart : Chart) : List ChartRow :=
  if chart.ySort.order = "descending" then
    List.insertionSort
      (fun a b => fieldValue b chart.ySort.field ≤ fieldValue a chart.ySort.field)
      chart.data
  else
    List.insertionSort
      (fun a b => fieldValue a chart.ySort.field ≤ fieldValue b chart.ySort.field)
      chart.data

/-- The tensorflow.keras modules imported by config_keras_applications,
as abstract functions. -/
structure TFModules (Image Tensor Preds : Type) where
  densenet_DenseNet121 : String → KerasModel Tensor Preds
  densenet_preprocess_input : Tensor → Tensor
  densenet_decode_predictions : Preds → List (List Pred)
  inception_v3_InceptionV3 : String → KerasModel Tensor Preds
  inception_v3_preprocess_input : Tensor → Tensor
  inception_v3_decode_predictions : Preds → List (List Pred)
  mobilenet_v2_MobileNetV2 : String → KerasModel Tensor Preds
  mobilenet_v2_preprocess_input : Tensor → Tensor
  mobilenet_v2_decode_predictions : Preds → List (List Pred)
  nasnet_NASNetMobile : String → KerasModel Tensor Preds
  nasnet_NASNetLarge : String → KerasModel Tensor Preds
  nasnet_preprocess_input : Tensor → Tensor
  nasnet_decode_predictions : Preds → List (List Pred)
  resnet_ResNet50 : String → KerasModel Tensor Preds
  resnet_preprocess_input : Tensor → Tensor
  resnet_decode_predictions : Preds → List (List Pred)
  vgg19_VGG19 : String → KerasModel Tensor Preds
  vgg19_preprocess_input : Tensor → Tensor
  vgg19_decode_predictions : Preds → List (List Pred)
  xception_Xception : String → KerasModel Tensor Preds
  xception_preprocess_input : Tensor → Tensor
  xception_decode_predictions : Preds → List (List Pred)
  img_to_array : Image → Tensor
  load_img : String → Nat × Nat → Image

/-- The index of the default application in KERAS_APPLICATIONS. -/
def DEFAULT_KERAS_APPLICATION_INDEX : Nat := 2

/-- The fixed list KERAS_APPLICATIONS built by
config_keras_applications. -/
def KERAS_APPLICATIONS (tf : TFModules Image Tensor Preds) :
    List (KerasApplication Image Tensor Preds) :=
  [{ name := "DenseNet121"
     keras_application := tf.densenet_DenseNet121
     url := "https://keras.io/applications/#densenet"
     preprocess_input_func := tf.densenet_preprocess_input
     decode_predictions_func := tf.densenet_decode_predictions
     img_to_array_func := tf.img_to_array
     load_img_func := tf.load_img },
   { name := "InceptionV3"
     keras_application := tf.inception_v3_InceptionV3
     input_shape := (299, 299)
     url := "https://keras.io/applications/#inceptionv3"
     preprocess_input_func := tf.inception_v3_preprocess_input
     decode_predictions_func := tf.inception_v3_decode_predictions
     img_to_array_func := tf.img_to_array
     load_img_func := tf.load_img },
   { name := "MobileNetV2"
     keras_application := tf.mobilenet_v2_MobileNetV2
     url := "https://keras.io/applications/#mobilenet"
     preprocess_input_func := tf.mobilenet_v2_preprocess_input
     decode_predictions_func := tf.mobilenet_v2_decode_predictions
     img_to_array_func := tf.img_to_array
     load_img_func := tf.load_img },
   { name := "NASNetMobile"
     keras_application := tf.nasnet_NASNetMobile
     url := "https://keras.io/applications/#nasnet"
     preprocess_input_func := tf.nasnet_preprocess_input
     decode_predictions_func := tf.nasnet_decode_predictions
     img_to_array_func := tf.img_to_array
     load_img_func := tf.load_img },
   { name := "NASNetLarge"
     keras_application := tf.nasnet_NASNetLarge
     input_shape := (331, 331)
     url := "https://keras.io/applications/#nasnet"
     preprocess_input_func := tf.nasnet_preprocess_input
     decode_predictions_func := tf.nasnet_decode_predictions
     img_to_array_func := tf.img_to_array
     load_img_func := tf.load_img },
   { name := "ResNet50"
     keras_application := tf.resnet_ResNet50
     url := "https://keras.io/applications/#resnet"
     preprocess_input_func := tf.resnet_preprocess_input
     decode_predictions_func := tf.resnet_decode_predictions
     img_to_array_func := tf.img_to_array
     load_img_func := tf.load_img },
   { name := "VGG19"
     keras_application := tf.vgg19_VGG19
     url := "https://keras.io/applications/#vgg19"
     preprocess_input_func := tf.vgg19_preprocess_input
     decode_predictions_func := tf.vgg19_decode_predictions
     img_to_array_func := tf.img_to_array
     load_img_func := tf.load_img },
   { name := "Xception"
     keras_application := tf.xception_Xception
     input_shape := (299, 299)
     url := "https://keras.io/applications/#inceptionv3"
     preprocess_input_func := tf.xception_preprocess_input
     decode_predictions_func := tf.xception_decode_predictions
     img_to_array_func := tf.img_to_array
     load_img_func := tf.load_img }]

/-- State of the ImageClassifierApp parameterized component, including
the objects and default recorded on the model parameter. -/
structure ImageClassifierApp (Image Tensor Preds : Type) where
  model : Option (KerasApplication Image Tensor Preds)
  image_file : Option (List Nat)
  top_predictions : Option (List Pred)
  progress_value : ℤ
  progress_message : String
  model_objects : List (KerasApplication Image Tensor Preds)
  model_default : Option (KerasApplication Image Tensor Preds)

/-- ImageClassifierApp.__init__: parameters take their declared
defaults, then the default and objects of the model parameter are set and
the model is assigned KERAS_APPLICATIONS[DEFAULT_KERAS_APPLICATION_INDEX]. -/
def ImageClassifierApp.init (tf : TFModules Image Tensor Preds) :
    ImageClassifierApp Image Tensor Preds :=
  { model := (KERAS_APPLICATIONS tf)[DEFAULT_KERAS_APPLICATION_INDEX]?
    image_file := none
    top_predictions := none
    progress_value := 0
    progress_message := ""
    model_objects := KERAS_APPLICATIONS tf
    model_default := (KERAS_APPLICATIONS tf)[DEFAULT_KERAS_APPLICATION_INDEX]? }

/-- Python truthiness of the image_file parameter (bytes or None):
None and empty bytes are falsy. -/
def truthyFile : Option (List Nat) → Bool
  | none => false
  | some bs => !bs.isEmpty

/-- Python truthiness of the top_predictions parameter (list or None):
None and the empty list are falsy. -/
def truthyPreds : Option (List Pred) → Bool
  | none => false
  | some l => !l.isEmpty

/-- Python truthiness of the model parameter: a KerasApplication
NamedTuple has eight fields and is always truthy, so only None is
falsy. -/
def truthyModel : Option (KerasApplication Image Tensor Preds) → Bool :=
  Option.isSome

/-- ImageClassifierApp.report_progress: sets progress_message, then
progress_value. -/
def ImageClassifierApp.report_progress
    (s : ImageClassifierApp Image Tensor Preds)
    (message : String) (value : ℤ) : ImageClassifierApp Image Tensor Preds :=
  { s with progress_message := message, progress_value := value }

/-- Replays the report_progress_func callbacks a call trace makes onto
the app state, in order. -/
def applyCalls (s : ImageClassifierApp Image Tensor Preds) (calls : List Call) :
    ImageClassifierApp Image Tensor Preds :=
  calls.foldl (fun s c =>
    match c with
    | Call.report m v => s.report_progress m v
    | _ => s) s

/-- ImageClassifierApp.set_top_predictions: clears top_predictions,
then if both image_file and model are truthy reports the start, opens
the image and recomputes top_predictions via get_top_predictions
of the selected model with report_progress as the progress callback
(none models an uncaught exception inside the classification). -/
def ImageClassifierApp.set_top_predictions
    (s : ImageClassifierApp Image Tensor Preds) (env : PyEnv Image Tensor) :
    Option (ImageClassifierApp Image Tensor Preds) :=
  let s := { s with top_predictions := none }
  if truthyFile s.image_file && truthyModel s.model then
    match s.image_file, s.model with
    | some bs, some app =>
      let s := s.report_progress "Prediction Started" 1
      let pil_image := env.imageOpen bs
      let step := app.get_top_predictions env pil_image
      let s := applyCalls s step.1
      match step.2 with
      | some preds => some { s with top_predictions := some preds }
      | none => none
    | _, _ => some s
  else some s

/-- The panes returned by the views of the app. -/
inductive Pane where
  | markdown (text : String)
  | strPane (text : String)
  | htmlPane
  | progressWidget (value : ℤ) (width : Nat)
  | vegaPane (chart : Chart)
  | column (items : List Pane)

/-- ImageClassifierApp.main_prediction_view: the markdown of the main
prediction when model and top_predictions are truthy, otherwise a
"Not Available" string pane. -/
def ImageClassifierApp.main_prediction_view
    (s : ImageClassifierApp Image Tensor Preds) : Pane :=
  if truthyModel s.model && truthyPreds s.top_predictions then
    match s.top_predictions with
    | some preds =>
      match KerasApplication.to_main_prediction_string preds with
      | some str => Pane.markdown str
      | none => Pane.strPane "Not Available"
    | none => Pane.strPane "Not Available"
  else Pane.strPane "Not Available"

/-- ImageClassifierApp.predictions_chart_view: the predictions chart
with height 200 and width 400 when model and top_predictions are
truthy, otherwise a "Not Available" string pane. -/
def ImageClassifierApp.predictions_chart_view
    (s : ImageClassifierApp Image Tensor Preds) : Pane :=
  if truthyModel s.model && truthyPreds s.top_predictions then
    match s.top_predictions with
    | some preds =>
      Pane.vegaPane ((KerasApplication.to_predictions_chart preds).properties 200 400)
    | none => Pane.strPane "Not Available"
  else Pane.strPane "Not Available"

/-- ImageClassifierApp.predictions_view: the progress column while
progress_value is truthy, else the predictions column when
top_predictions is truthy, else an empty HTML pane. -/
def ImageClassifierApp.predictions_view
    (s : ImageClassifierApp Image Tensor Preds) : Pane :=
  if s.progress_value ≠ 0 then
    Pane.column
      [Pane.markdown "## Prediction",
       Pane.progressWidget s.progress_value 200,
       Pane.strPane s.progress_message]
  else if truthyPreds s.top_predictions then
    Pane.column
      [Pane.markdown "## Prediction",
       s.main_prediction_view,
       Pane.markdown "## Alternative Predictions",
       s.predictions_chart_view]
  else Pane.htmlPane

/-- Whether an external call touches the classification model. -/
def isModelCall : Call → Bool
  | Call.kerasApplicationCtor _ => true
  | Call.predictCall => true
  | Call.fitCall => true
  | _ => false

/-- A concrete prediction list used to evaluate the chart pipeline. -/
def preds0 : List Pred := [("n1", "cat", 1 / 2), ("n2", "dog", 9 / 10)]

/-- A trivial concrete external environment used to evaluate the
embedded app on unit images and tensors. -/
def env0 : PyEnv Unit Unit :=
  { resize := fun _ _ => ()
    expand_dims := fun _ _ => ()
    imageOpen := fun _ => () }

/-- A concrete KerasApplication whose decoder returns one prediction. -/
def app0 : KerasApplication Unit Unit Unit :=
  { name := "MobileNetV2"
    keras_application := fun _ => { predict := fun _ => () }
    preprocess_input_func := fun t => t
    decode_predictions_func := fun _ => [[("n02123045", "tabby", 7 / 10)]]
    load_img_func := fun _ _ => ()
    img_to_array_func := fun _ => () }

/-- A concrete app state with an uploaded image and a selected model. -/
def s0 : ImageClassifierApp Unit Unit Unit :=
  { model := some app0
    image_file := some [1, 2, 3]
    top_predictions := none
    progress_value := 0
    progress_message := ""
    model_objects := []
    model_default := none }

/-- The state s0 after a successful classification. -/
def s0c : ImageClassifierApp Unit Unit Unit :=
  { model := some app0
    image_file := some [1, 2, 3]
    top_predictions := some [("n02123045", "tabby", 7 / 10)]
    progress_value := 0
    progress_message := ""
    model_objects := []
    model_default := none }

/-- A concrete app state with a classification in progress. -/
def s7 : ImageClassifierApp Unit Unit Unit :=
  { model := none
    image_file := none
    top_predictions := none
    progress_value := 5
    progress_message := "Working"
    model_objects := []
    model_default := none }

end ImageClassifierExample

namespace ImageClassifierExample

variable {Image Tensor Preds : Type}

/-- C1: for every image and every KerasApplication, get_top_predictions
performs exactly these steps in order: obtain the model via get_model
(the application with imagenet weights), preprocess the image via
preprocess_input (resize to input_shape, convert to array, expand a
batch dimension, apply the preprocess function of the application), call
model.predict on the preprocessed image, decode the result with
decode_predictions_func, and return the first element of the decoded
result as the list of (id, prediction, probability) tuples. -/
theorem get_top_predictions_pipeline
    (env : PyEnv Image Tensor) (app : KerasApplication Image Tensor Preds)
    (image : Image) :
    app.get_top_predictions env image =
      ([Call.report
          ("Loading " ++ app.name ++
            " model ... (The first time this is done it may take several minutes)")
          10,
        Call.kerasApplicationCtor "imagenet",
        Call.report "Processing image ... " 67,
        Call.resizeCall app.input_shape,
        Call.imgToArrayCall,
        Call.expandDimsCall 0,
        Call.applicationPreprocessCall,
        Call.report ("Classifying image with " ++ sq ++ app.name ++ sq ++ "... ") 85,
        Call.predictCall,
        Call.decodePredictionsCall,
        Call.report "" 0],
       (app.decode_predictions_func
          (app.get_model.predict
            (app.preprocess_input_func
              (env.expand_dims
                (app.img_to_array_func (env.resize image app.input_shape)) 0))))[0]?) := by
  rfl

/-- C5: the model picker offers exactly the fixed eight-element list
KERAS_APPLICATIONS, and on construction the selected model (and the
parameter default) is KERAS_APPLICATIONS[DEFAULT_KERAS_APPLICATION_INDEX],
i.e. index 2, MobileNetV2. -/
theorem keras_applications_fixed_list_and_default
    (tf : TFModules Image Tensor Preds) :
    (KERAS_APPLICATIONS tf).map KerasApplication.name =
      ["DenseNet121", "InceptionV3", "MobileNetV2", "NASNetMobile",
       "NASNetLarge", "ResNet50", "VGG19", "Xception"] ∧
    DEFAULT_KERAS_APPLICATION_INDEX = 2 ∧
    ((KERAS_APPLICATIONS tf)[DEFAULT_KERAS_APPLICATION_INDEX]?).map
        KerasApplication.name = some "MobileNetV2" ∧
    (ImageClassifierApp.init tf).model_objects = KERAS_APPLICATIONS tf ∧
    (ImageClassifierApp.init tf).model = (KERAS_APPLICATIONS tf)[2]? ∧
    (ImageClassifierApp.init tf).model_default = (ImageClassifierApp.init tf).model := by
  refine ⟨rfl, rfl, rfl, rfl, rfl, rfl⟩

/-- C6: the classification model is used only by inference: get_model
constructs the application with weights="imagenet", and among the
model-touching calls get_top_predictions makes there is exactly the
construction followed by a single predict, with no training (fit)
call. -/
theorem model_used_only_by_inference
    (env : PyEnv Image Tensor) (app : KerasApplication Image Tensor Preds)
    (image : Image) :
    app.get_model = app.keras_application "imagenet" ∧
    (app.get_top_predictions env image).1.filter isModelCall =
      [Call.kerasApplicationCtor "imagenet", Call.predictCall] ∧
    ((app.get_top_predictions env image).1.filter isModelCall).count
      Call.predictCall = 1 ∧
    (app.get_top_predictions env image).1.count Call.fitCall = 0 := by
  refine ⟨rfl, rfl, rfl, ?_⟩
  simp [KerasApplication.get_top_predictions, KerasApplication.preprocess_input,
    KerasApplication.to_input_shape, List.count_cons, List.count_append]

/-- C3: whenever image_file or model changes, set_top_predictions first
clears top_predictions to None (so the outcome never depends on the
previous top_predictions); it recomputes top_predictions via the
get_top_predictions of the selected model if and only if both image_file and
model are truthy; if either is absent the state is returned with
top_predictions still None and nothing else changed. -/
theorem set_top_predictions_clears_then_recomputes
    (env : PyEnv Image Tensor) (s : ImageClassifierApp Image Tensor Preds) :
    (∀ tp, ImageClassifierApp.set_top_predictions
        { s with top_predictions := tp } env = s.set_top_predictions env) ∧
    (truthyFile s.image_file = false ∨ truthyModel s.model = false →
      s.set_top_predictions env = some { s with top_predictions := none }) ∧
    (∀ bs app s', s.image_file = some bs → truthyFile s.image_file = true →
      s.model = some app → s.set_top_predictions env = some s' →
        s'.top_predictions = (app.get_top_predictions env (env.imageOpen bs)).2) := by
  refine ⟨fun tp => rfl, ?_, ?_⟩
  · intro h
    have hcond : (truthyFile s.image_file && truthyModel s.model) = false := by
      rcases h with h | h <;> simp [h]
    unfold ImageClassifierApp.set_top_predictions
    simp [hcond]
  · intro bs app s' hbs hfile happ hres
    unfold ImageClassifierApp.set_top_predictions at hres
    rw [hbs] at hfile
    simp only [hbs, happ, hfile, truthyModel, Option.isSome_some,
      Bool.and_self, if_true] at hres
    rcases hstep : (app.get_top_predictions env (env.imageOpen bs)).2 with _ | preds
    · rw [hstep] at hres
      cases hres
    · rw [hstep] at hres
      cases hres
      rfl

/-- C7: while progress_value is nonzero, predictions_view returns the
progress column showing a Progress widget with value progress_value
and the progress_message text; once progress_value is 0 and
top_predictions is truthy it returns the column with the main
prediction view and the predictions chart view; if neither holds it
returns an empty HTML pane. -/
theorem predictions_view_cases (s : ImageClassifierApp Image Tensor Preds) :
    (s.progress_value ≠ 0 →
      s.predictions_view = Pane.column
        [Pane.markdown "## Prediction",
         Pane.progressWidget s.progress_value 200,
         Pane.strPane s.progress_message]) ∧
    (s.progress_value = 0 → truthyPreds s.top_predictions = true →
      s.predictions_view = Pane.column
        [Pane.markdown "## Prediction",
         s.main_prediction_view,
         Pane.markdown "## Alternative Predictions",
         s.predictions_chart_view]) ∧
    (s.progress_value = 0 → truthyPreds s.top_predictions = false →
      s.predictions_view = Pane.htmlPane) := by
  refine ⟨?_, ?_, ?_⟩
  · intro h
    unfold ImageClassifierApp.predictions_view
    simp [h]
  · intro h0 hpreds
    unfold ImageClassifierApp.predictions_view
    simp [h0, hpreds]
  · intro h0 hpreds
    unfold ImageClassifierApp.predictions_view
    simp [h0, hpreds]

/-- C2: for every non-empty list of (id, prediction, probability)
predictions, to_predictions_chart returns a bar chart whose y encoding
sorts by the probability field in descending order; under the charting
sort semantics of the charting library the rendered bars are in descending
probability order, so a bar of maximal probability appears first. -/
theorem to_predictions_chart_ranked (predictions : List Pred)
    (hne : predictions ≠ []) :
    (KerasApplication.to_predictions_chart predictions).ySort =
      { field := "probability", order := "descending" } ∧
    (KerasApplication.to_predictions_chart predictions).mark = "bar" ∧
    List.Sorted (fun a b : ChartRow => b.probability ≤ a.probability)
      (renderedYOrder (KerasApplication.to_predictions_chart predictions)) ∧
    ∃ hd, (renderedYOrder
        (KerasApplication.to_predictions_chart predictions)).head? = some hd ∧
      ∀ p ∈ predictions, round2 p.2.2 * 100 ≤ hd.probability := by
  have hfv : ∀ row : ChartRow, fieldValue row "probability" = row.probability := by
    intro row
    simp [fieldValue]
  have hrender : renderedYOrder (KerasApplication.to_predictions_chart predictions) =
      List.insertionSort
        (fun a b : ChartRow => fieldValue b "probability" ≤ fieldValue a "probability")
        ((KerasApplication.to_predictions_chart predictions).data) := by
    rfl
  haveI : IsTotal ChartRow
      (fun a b : ChartRow => fieldValue b "probability" ≤ fieldValue a "probability") :=
    ⟨fun a b => le_total _ _⟩
  haveI : IsTrans ChartRow
      (fun a b : ChartRow => fieldValue b "probability" ≤ fieldValue a "probability") :=
    ⟨fun a b c hab hbc => le_trans hbc hab⟩
  have hsorted' := List.sorted_insertionSort
    (fun a b : ChartRow => fieldValue b "probability" ≤ fieldValue a "probability")
    ((KerasApplication.to_predictions_chart predictions).data)
  have hsorted : List.Sorted (fun a b : ChartRow => b.probability ≤ a.probability)
      (renderedYOrder (KerasApplication.to_predictions_chart predictions)) := by
    rw [hrender]
    exact hsorted'.imp (fun hab => by simpa [hfv] using hab)
  refine ⟨rfl, rfl, hsorted, ?_⟩
  rcases hL : renderedYOrder (KerasApplication.to_predictions_chart predictions)
      with _ | ⟨hd, tl⟩
  · exfalso
    have := congrArg List.length hL
    rw [hrender] at hL
    have hperm := List.perm_insertionSort
      (fun a b : ChartRow => fieldValue b "probability" ≤ fieldValue a "probability")
      ((KerasApplication.to_predictions_chart predictions).data)
    rw [hL] at hperm
    have hdata : (KerasApplication.to_predictions_chart predictions).data = [] :=
      (List.Perm.nil_eq hperm).symm
    have hmap : predictions.map predToRow = [] := hdata
    exact hne (List.map_eq_nil_iff.mp hmap)
  · refine ⟨hd, rfl, ?_⟩
    intro p hp
    have hrow : predToRow p ∈
        (KerasApplication.to_predictions_chart predictions).data :=
      List.mem_map_of_mem _ hp
    have hmem : predToRow p ∈
        renderedYOrder (KerasApplication.to_predictions_chart predictions) := by
      rw [hrender]
      exact (List.mem_insertionSort _).mpr hrow
    rw [hL] at hmem
    rw [hL] at hsorted
    have hgoal : (predToRow p).probability = round2 p.2.2 * 100 := rfl
    rw [← hgoal]
    rcases List.mem_cons.mp hmem with heq | htl
    · rw [heq]
    · exact List.rel_of_sorted_cons hsorted _ htl

end ImageClassifierExample

namespace AsyncTasks

/-- C4: do_calc submits each blocking task to the ThreadPoolExecutor
and only registers the _update callback on the IOLoop, so under the
documented thread semantics of the executor and the IOLoop no blocking
sleep ever runs on the UI thread; all twenty sleeps run on worker
threads. -/
theorem do_calc_runs_blocking_work_off_ui_thread (num_tasks : Nat) :
    (do_calc num_tasks).actions =
      (List.replicate 20
        [LoopAction.executorSubmit [BgWork.sleep 1],
         LoopAction.ioloopAddFuture [BgWork.addToResult 5]]).flatten ∧
    ((do_calc num_tasks).actions.flatMap uiThreadWork).all
      (fun w => !isSleep w) = true ∧
    ((do_calc num_tasks).actions.flatMap workerThreadWork).count
      (BgWork.sleep 1) = 20 ∧
    ((do_calc num_tasks).actions.filter isSubmit).length = 20 := by
  refine ⟨rfl, rfl, rfl, rfl⟩

/-- C8: do_calc ignores its num_tasks parameter: for every pair of
argument values it produces the same result, it writes 20 to
progress.num_tasks and submits exactly 20 tasks, even though the
signature defaults num_tasks to 10. -/
theorem do_calc_ignores_num_tasks (n m : Nat) :
    do_calc n = do_calc m ∧
    (do_calc n).progress_num_tasks = 20 ∧
    ((do_calc n).actions.filter isSubmit).length = 20 ∧
    do_calc_default_num_tasks = 10 ∧
    (do_calc do_calc_default_num_tasks).progress_num_tasks = 20 := by
  refine ⟨rfl, rfl, rfl, rfl, rfl⟩

/-- increment only touches completed and reset only writes completed,
so num_tasks is stable under iterated increments. -/
theorem iterateIncrement_num_tasks (n : ℤ) (k : Nat) :
    (iterateIncrement n k).num_tasks = n := by
  induction k with
  | zero => rfl
  | succ k ih =>
    show ((iterateIncrement n k).increment).num_tasks = n
    unfold ProgressExtMod.increment ProgressExtMod.reset
    dsimp only
    split <;> simpa using ih

/-- The completed field after one increment call. -/
theorem increment_completed (p : ProgressExtMod) :
    (p.increment).completed =
      if p.completed + 1 = p.num_tasks then 0 else p.completed + 1 := by
  unfold ProgressExtMod.increment ProgressExtMod.reset
  dsimp only
  split <;> rfl

/-- For a state with num_tasks ≥ 1 and completed ≥ 0, value is the
floor of the exact ratio, i.e. integer division. -/
theorem value_formula (p : ProgressExtMod) (hn : 1 ≤ p.num_tasks)
    (hc : 0 ≤ p.completed) :
    p.value = some (100 * p.completed / p.num_tasks) := by
  have hn0 : p.num_tasks ≠ 0 := by omega
  have hnpos : (0 : ℤ) ≤ p.num_tasks := by omega
  unfold ProgressExtMod.value
  rw [if_neg hn0]
  congr 1
  have hq : (0 : ℚ) ≤ 100 * ((p.completed : ℚ) / (p.num_tasks : ℚ)) := by
    have h1 : (0 : ℚ) ≤ (p.completed : ℚ) := by exact_mod_cast hc
    have h2 : (0 : ℚ) ≤ (p.num_tasks : ℚ) := by exact_mod_cast hnpos
    have := div_nonneg h1 h2
    linarith
  unfold truncQ
  rw [if_pos hq]
  have hcast : 100 * ((p.completed : ℚ) / (p.num_tasks : ℚ)) =
      ((100 * p.completed : ℤ) : ℚ) / ((p.num_tasks.toNat : ℕ) : ℚ) := by
    have htn : ((p.num_tasks.toNat : ℕ) : ℚ) = (p.num_tasks : ℚ) := by
      exact_mod_cast Int.toNat_of_nonneg hnpos
    rw [htn]
    push_cast
    ring
  rw [hcast, Rat.floor_intCast_div_natCast]
  rw [Int.toNat_of_nonneg hnpos]

/-- C9 (amended): for every sequence of increment calls starting from
completed = 0 with a fixed num_tasks ≥ 1, after each call the invariant
0 ≤ completed < num_tasks holds: a call raises completed by 1, except
that when completed reaches num_tasks it is immediately reset to 0;
consequently the value computed in exact rational arithmetic stays
strictly below 100 at all these points (the double-precision value the
code computes can reach exactly 100 at extreme states; see the
counterexample below). -/
theorem increment_preserves_invariant (n : ℤ) (k : Nat) (hn : 1 ≤ n) :
    0 ≤ (iterateIncrement n k).completed ∧
    (iterateIncrement n k).completed < n ∧
    ((iterateIncrement n k).completed + 1 = n →
      (iterateIncrement n (k + 1)).completed = 0) ∧
    ((iterateIncrement n k).completed + 1 ≠ n →
      (iterateIncrement n (k + 1)).completed =
        (iterateIncrement n k).completed + 1) ∧
    ∃ v, (iterateIncrement n k).value = some v ∧ 0 ≤ v ∧ v < 100 := by
  have hnum := iterateIncrement_num_tasks n
  have hmain : ∀ j, 0 ≤ (iterateIncrement n j).completed ∧
      (iterateIncrement n j).completed < n := by
    intro j
    induction j with
    | zero =>
      refine ⟨le_refl 0, ?_⟩
      show (0 : ℤ) < n
      omega
    | succ j ih =>
      have hstep : (iterateIncrement n (j + 1)).completed =
          if (iterateIncrement n j).completed + 1 = n then 0
          else (iterateIncrement n j).completed + 1 := by
        show ((iterateIncrement n j).increment).completed = _
        rw [increment_completed, hnum j]
      rw [hstep]
      rcases ih with ⟨h0, h1⟩
      split <;> omega
  have hstep : ∀ j, (iterateIncrement n (j + 1)).completed =
      if (iterateIncrement n j).completed + 1 = n then 0
      else (iterateIncrement n j).completed + 1 := by
    intro j
    show ((iterateIncrement n j).increment).completed = _
    rw [increment_completed, hnum j]
  rcases hmain k with ⟨h0, h1⟩
  refine ⟨h0, h1, ?_, ?_, ?_⟩
  · intro heq
    rw [hstep k, if_pos heq]
  · intro hne
    rw [hstep k, if_neg hne]
  · have hval := value_formula (iterateIncrement n k) (by rw [hnum k]; exact hn) h0
    rw [hnum k] at hval
    refine ⟨100 * (iterateIncrement n k).completed / n, hval, ?_, ?_⟩
    · exact Int.ediv_nonneg (by omega) (by omega)
    · have hlt : 100 * (iterateIncrement n k).completed < 100 * n := by omega
      exact (Int.ediv_lt_iff_lt_mul (by omega)).mpr (by omega)

/-- Before the first reset, completed after k increment calls is
exactly k. -/
theorem iterateIncrement_completed_of_lt (n : ℤ) (k : Nat)
    (h : (k : ℤ) < n) :
    (iterateIncrement n k).completed = (k : ℤ) := by
  induction k with
  | zero => rfl
  | succ k ih =>
    have hk : (k : ℤ) < n := by push_cast at h ⊢; omega
    have hstep : (iterateIncrement n (k + 1)).completed =
        if (iterateIncrement n k).completed + 1 = n then 0
        else (iterateIncrement n k).completed + 1 := by
      show ((iterateIncrement n k).increment).completed = _
      rw [increment_completed, iterateIncrement_num_tasks]
    rw [hstep, ih hk]
    have hne : ((k : ℤ) + 1) ≠ n := by push_cast at h; omega
    rw [if_neg hne]
    push_cast
    ring

set_option maxRecDepth 40000 in
/-- C9 counterexample: with num_tasks = 2 ^ 54, after 2 ^ 54 - 1
increment calls completed = 2 ^ 54 - 1, so the invariant
0 ≤ completed < num_tasks still holds, but the double-precision value
the code computes at this point is exactly 100, not strictly below it:
the division (2 ^ 54 - 1) / 2 ^ 54 rounds to 1.0. -/
theorem increment_value_reaches_100 :
    (1 : ℤ) ≤ 2 ^ 54 ∧
    (iterateIncrement (2 ^ 54) (2 ^ 54 - 1)).completed = 2 ^ 54 - 1 ∧
    0 ≤ (iterateIncrement (2 ^ 54) (2 ^ 54 - 1)).completed ∧
    (iterateIncrement (2 ^ 54) (2 ^ 54 - 1)).completed < 2 ^ 54 ∧
    (iterateIncrement (2 ^ 54) (2 ^ 54 - 1)).valueFloat = some 100 ∧
    ¬ (100 : ℤ) < 100 := by
  have hc : (iterateIncrement (2 ^ 54) (2 ^ 54 - 1)).completed =
      ((2 ^ 54 - 1 : ℕ) : ℤ) :=
    iterateIncrement_completed_of_lt _ _ (by push_cast)
  have hcast : ((2 ^ 54 - 1 : ℕ) : ℤ) = 2 ^ 54 - 1 := by push_cast
  rw [hc, hcast]
  have hn := iterateIncrement_num_tasks (2 ^ 54) (2 ^ 54 - 1)
  have hval : (iterateIncrement (2 ^ 54) (2 ^ 54 - 1)).valueFloat =
      some 100 := by
    unfold ProgressExtMod.valueFloat
    rw [hc, hcast, hn]
    decide
  rw [hval]
  refine ⟨by decide, rfl, by decide, by decide, rfl, by decide⟩

/-- C10 (amended): value never divides by zero: under the param bound
num_tasks ≥ 1, for every state with 0 ≤ completed ≤ num_tasks, value is
defined; in exact rational arithmetic it equals the integer truncation
of 100 * completed / num_tasks, lying between 0 and 100 inclusive; and
the double-precision evaluation the code performs is well-defined as
well (though at isolated inputs it differs by one from the exact
truncation). -/
theorem value_well_defined_and_bounded (c n : ℤ) (hn : 1 ≤ n)
    (hc : 0 ≤ c) (hcn : c ≤ n) :
    ({ completed := c, num_tasks := n } : ProgressExtMod).numTasksInBounds ∧
    (∃ v, ({ completed := c, num_tasks := n } : ProgressExtMod).value = some v ∧
      v = 100 * c / n ∧ 0 ≤ v ∧ v ≤ 100) ∧
    ∃ w, ({ completed := c, num_tasks := n } : ProgressExtMod).valueFloat =
      some w := by
  refine ⟨hn, ⟨100 * c / n, value_formula _ hn hc, rfl, ?_, ?_⟩, ?_⟩
  · exact Int.ediv_nonneg (by omega) (by omega)
  · calc 100 * c / n ≤ 100 * n / n := Int.ediv_le_ediv (by omega) (by omega)
      _ = 100 := Int.mul_ediv_cancel 100 (by omega)
  · have hn0 : n ≠ 0 := by omega
    unfold ProgressExtMod.valueFloat
    rw [if_neg hn0]
    exact ⟨_, rfl⟩

set_option maxRecDepth 40000 in
/-- C10 counterexample: at completed = 29 with the default
num_tasks = 100, the double-precision evaluation of
int(100 * (29 / 100)) yields 28, while the integer truncation of
100 * 29 / 100 is 29, so value does not equal that truncation there. -/
theorem value_float_deviates_at_29_of_100 :
    ({ completed := 29, num_tasks := 100 } : ProgressExtMod).valueFloat =
      some 28 ∧
    (100 * 29 / 100 : ℤ) = 29 ∧
    ({ completed := 29, num_tasks := 100 } : ProgressExtMod).valueFloat ≠
      some (100 * 29 / 100 : ℤ) := by
  refine ⟨?_, ?_, ?_⟩ <;> decide

/-- Witness for C9 at num_tasks = 3 after four increment calls. -/
theorem increment_preserves_invariant_witness :
    (1 : ℤ) ≤ 3 ∧
    (0 ≤ (iterateIncrement 3 4).completed ∧
     (iterateIncrement 3 4).completed < 3 ∧
     ((iterateIncrement 3 4).completed + 1 = 3 →
       (iterateIncrement 3 5).completed = 0) ∧
     ((iterateIncrement 3 4).completed + 1 ≠ 3 →
       (iterateIncrement 3 5).completed = (iterateIncrement 3 4).completed + 1) ∧
     ∃ v, (iterateIncrement 3 4).value = some v ∧ 0 ≤ v ∧ v < 100) :=
  ⟨by decide, increment_preserves_invariant 3 4 (by decide)⟩

/-- Witness for C10 at completed = 3, num_tasks = 4. -/
theorem value_well_defined_and_bounded_witness :
    (1 : ℤ) ≤ 4 ∧ (0 : ℤ) ≤ 3 ∧ (3 : ℤ) ≤ 4 ∧
    (({ completed := 3, num_tasks := 4 } : ProgressExtMod).numTasksInBounds ∧
     (∃ v, ({ completed := 3, num_tasks := 4 } : ProgressExtMod).value = some v ∧
       v = 100 * 3 / 4 ∧ 0 ≤ v ∧ v ≤ 100) ∧
     ∃ w, ({ completed := 3, num_tasks := 4 } : ProgressExtMod).valueFloat =
       some w) :=
  ⟨by decide, by decide, by decide,
    value_well_defined_and_bounded 3 4 (by decide) (by decide) (by decide)⟩

end AsyncTasks

namespace ImageClassifierExample

/-- Witness for C2 at a concrete two-element prediction list. -/
theorem to_predictions_chart_ranked_witness :
    preds0 ≠ [] ∧
    ((KerasApplication.to_predictions_chart preds0).ySort =
      { field := "probability", order := "descending" } ∧
     (KerasApplication.to_predictions_chart preds0).mark = "bar" ∧
     List.Sorted (fun a b : ChartRow => b.probability ≤ a.probability)
       (renderedYOrder (KerasApplication.to_predictions_chart preds0)) ∧
     ∃ hd, (renderedYOrder
         (KerasApplication.to_predictions_chart preds0)).head? = some hd ∧
       ∀ p ∈ preds0, round2 p.2.2 * 100 ≤ hd.probability) :=
  ⟨by decide, to_predictions_chart_ranked preds0 (by decide)⟩

/-- Witness for C3 at a concrete state with an image and a model. -/
theorem set_top_predictions_clears_then_recomputes_witness :
    s0.image_file = some [1, 2, 3] ∧
    truthyFile s0.image_file = true ∧
    s0.model = some app0 ∧
    s0.set_top_predictions env0 = some s0c ∧
    s0c.top_predictions = (app0.get_top_predictions env0 (env0.imageOpen [1, 2, 3])).2 :=
  ⟨rfl, rfl, rfl, rfl,
    (set_top_predictions_clears_then_recomputes env0 s0).2.2
      [1, 2, 3] app0 s0c rfl rfl rfl rfl⟩

/-- Witness for C7 at a concrete state with a classification in
progress. -/
theorem predictions_view_cases_witness :
    s7.progress_value ≠ 0 ∧
    s7.predictions_view = Pane.column
      [Pane.markdown "## Prediction",
       Pane.progressWidget 5 200,
       Pane.strPane "Working"] :=
  ⟨by decide, (predictions_view_cases s7).1 (by decide)⟩

end ImageClassifierExample
